import Mathlib

/-!
Verification of the deployment-preparation script (`deploy_vercel.py`) and
the serverless entrypoint (`vercel_main.py`) of the Jubair Boot House
repository, as a shallow embedding in Lean 4.

Filesystem state is modelled as a function from path strings to an entry
status (absent, plain file, or directory); collaborator calls that may
return a boolean or raise are modelled by an explicit outcome type.
-/

namespace JubairBootHouse

/-- Status of a path on the filesystem: missing, a plain (non-directory)
file, or a directory. -/
inductive Entry where
  | absent
  | file
  | dir
deriving DecidableEq, Repr

/-- A filesystem snapshot: what each path name resolves to. -/
def FS : Type := String → Entry

/-- `os.path.exists p`: true when the path resolves to anything at all. -/
def pathExists (fs : FS) (p : String) : Bool :=
  decide (fs p ≠ Entry.absent)

/-- `os.path.isdir p`: true when the path resolves to a directory. -/
def isDir (fs : FS) (p : String) : Bool :=
  decide (fs p = Entry.dir)

/-- Remove a single path from a filesystem snapshot. -/
def removePath (fs : FS) (p : String) : FS :=
  fun q => if q = p then Entry.absent else fs q

/-- The `required_files` list of `check_vercel_files`. -/
def required_files : List String :=
  ["vercel.json", "vercel_main.py", "requirements-vercel.txt"]

/-- The `required_dirs` list of `check_project_structure`. -/
def required_dirs : List String :=
  ["app", "static", "templates"]

/-- `check_vercel_files`: iterates over `required_files`, collecting missing
ones and printing a checkmark line per present one; prints a combined
missing-files line and returns `False` when any is missing, otherwise prints
a success line and returns `True`. Result: (console lines, return value). -/
def check_vercel_files (fs : FS) : List String × Bool :=
  let missing_files := required_files.filter (fun f => !pathExists fs f)
  let loopLines := required_files.filterMap
    (fun f => if pathExists fs f then some ("✅ " ++ f) else none)
  if missing_files.isEmpty then
    ("Checking Vercel deployment files..." ::
      loopLines ++ ["✅ All Vercel files are present!"], true)
  else
    ("Checking Vercel deployment files..." ::
      loopLines ++
        ["❌ Missing files: " ++ String.intercalate ", " missing_files], false)

/-- One required directory passes the structure check when it exists and is
a directory (`os.path.exists(dir_name) and os.path.isdir(dir_name)`). -/
def dirOk (fs : FS) (d : String) : Bool :=
  pathExists fs d && isDir fs d

/-- The `for dir_name in required_dirs` loop of `check_project_structure`:
prints a line per directory but returns `False` at the first failing one,
skipping the rest; on surviving the whole list prints the success line and
returns `True`. -/
def checkDirsLoop (fs : FS) : List String → List String × Bool
  | [] => (["✅ Project structure is correct!"], true)
  | d :: rest =>
    if dirOk fs d then
      let r := checkDirsLoop fs rest
      (("✅ " ++ d ++ "/ directory") :: r.1, r.2)
    else
      (["❌ " ++ d ++ "/ directory missing"], false)

/-- `check_project_structure`: header line, then the loop over
`required_dirs`. Result: (console lines, return value). -/
def check_project_structure (fs : FS) : List String × Bool :=
  let r := checkDirsLoop fs required_dirs
  ("\n🏗️  Checking project structure..." :: r.1, r.2)

/-- A response produced by one of the simple route handlers of
`vercel_main.py`: either an HTTP redirect to a target URL or a rendered
template. -/
inductive Response where
  | redirect (url : String)
  | template (name : String)
deriving DecidableEq, Repr

/-- An incoming HTTP request, opaque to the handlers modelled here. -/
structure Request where
  mk ::

/-- `catalog_redirect`: GET /catalog. -/
def catalog_redirect (_ : Request) : Response :=
  Response.redirect "/products/"

/-- `admin_dashboard_redirect`: GET /admin/dashboard. -/
def admin_dashboard_redirect (_ : Request) : Response :=
  Response.redirect "/products/admin/dashboard"

/-- `admin_users_redirect`: GET /admin/users. -/
def admin_users_redirect (_ : Request) : Response :=
  Response.redirect "/auth/admin/users"

/-- How one run of `generate_secret_key` can unfold: token generation and
the file write both succeed, `secrets.token_urlsafe(32)` raises, or the
write to `vercel_secret_key.txt` raises after a token was generated. -/
inductive GenEvent where
  | ok (token : String)
  | genRaises (msg : String)
  | writeRaises (token : String) (msg : String)
deriving DecidableEq, Repr

/-- The body of the `try:` block of `generate_secret_key`: either the
generated token, or the exception that escaped the block. -/
def generateSecretKeyBody : GenEvent → Except String String
  | GenEvent.ok t => Except.ok t
  | GenEvent.genRaises m => Except.error m
  | GenEvent.writeRaises _ m => Except.error m

/-- `generate_secret_key`: returns the token on success; the `except`
clause catches any exception, logs it, and returns `None`. Result:
(console lines, returned value). The function is total: no exception
escapes it. -/
def generate_secret_key (e : GenEvent) : List String × Option String :=
  match generateSecretKeyBody e with
  | Except.ok t =>
    (["\n🔑 Generating secure secret key...",
      "✅ Generated SECRET_KEY: " ++ t,
      "📝 Secret key saved to 'vercel_secret_key.txt'",
      "💡 Copy these environment variables to Vercel dashboard"], some t)
  | Except.error m =>
    (["\n🔑 Generating secure secret key...",
      "❌ Error generating secret key: " ++ m], none)

/-- The content written to `vercel_secret_key.txt` on a successful run:
the concatenation of the three `f.write` payloads. -/
def secretFileContent (token : String) : String :=
  "SECRET_KEY=" ++ token ++ "\n" ++ "ENVIRONMENT=production\n" ++ "DEBUG=false\n"

/-- The lines of `vercel_secret_key.txt`: each of the three `f.write`
calls emits exactly one newline-terminated line (the generated token is
URL-safe text and contains no newline). -/
def secretFileLines (token : String) : List String :=
  ["SECRET_KEY=" ++ token, "ENVIRONMENT=production", "DEBUG=false"]

/-- The fixed markdown lines of the `checklist_content` string of
`create_deployment_checklist`, in order. -/
def checklistLines : List String :=
  ["# Vercel Deployment Checklist",
   "",
   "## ✅ Pre-Deployment",
   "- [ ] All Vercel files are present (vercel.json, vercel_main.py, requirements-vercel.txt)",
   "- [ ] Project structure is correct (app/, static/, templates/)",
   "- [ ] Code is pushed to GitHub",
   "- [ ] Secret key is generated",
   "",
   "## 🏗️ Deployment Steps",
   "1. [ ] Go to [vercel.com](https://vercel.com) and sign up/login",
   "2. [ ] Click \"New Project\"",
   "3. [ ] Import your GitHub repository",
   "4. [ ] Configure project settings",
   "5. [ ] Click \"Deploy\"",
   "6. [ ] Add environment variables:",
   "   - ENVIRONMENT=production",
   "   - DEBUG=false",
   "   - SECRET_KEY=[your-generated-key]",
   "7. [ ] Redeploy with environment variables",
   "",
   "## 🧪 Post-Deployment Testing",
   "- [ ] App is accessible at Vercel URL",
   "- [ ] Health endpoint (/health) works",
   "- [ ] Home page loads correctly",
   "- [ ] All navigation works",
   "- [ ] User registration works",
   "- [ ] Admin login works",
   "",
   "## 🔧 Environment Variables for Vercel",
   "```",
   "ENVIRONMENT=production",
   "DEBUG=false",
   "SECRET_KEY=[your-secret-key-here]",
   "```",
   "",
   "## 📱 Your Vercel URL",
   "After deployment, your app will be available at:",
   "`https://your-project-name.vercel.app`",
   "",
   "## 🚨 Important Notes",
   "- Vercel uses serverless functions (no persistent storage)",
   "- Database resets on each deployment",
   "- Cold starts may cause initial delays",
   "- Perfect for demos and testing",
   "- Consider external database for production data",
   "",
   "---",
   "**Happy deploying on Vercel! 🚀**",
   ""]

/-- `create_deployment_checklist`: writes the fixed markdown content to the
fixed filename `VERCEL-CHECKLIST.md`, overwriting any existing file.
Result: (target filename, written content). -/
def create_deployment_checklist : String × String :=
  ("VERCEL-CHECKLIST.md", String.intercalate "\n" checklistLines)

/-- Steps of the `main` preparation flow, in execution order. -/
inductive Step where
  | filesCheck
  | structureCheck
  | secretGen
  | checklistWrite
deriving DecidableEq, Repr

/-- Python truthiness of `secret_key` in `if not secret_key:`: `None` and
the empty string are falsy. -/
def pyTruthy : Option String → Bool
  | none => false
  | some s => !s.isEmpty

/-- `main`: runs the file check, the structure check, secret generation and
the checklist write in order, aborting with `False` at the first failure.
Result: (steps executed, returned value). -/
def main (fs : FS) (g : GenEvent) : List Step × Bool :=
  if !(check_vercel_files fs).2 then ([Step.filesCheck], false)
  else if !(check_project_structure fs).2 then
    ([Step.filesCheck, Step.structureCheck], false)
  else if !pyTruthy (generate_secret_key g).2 then
    ([Step.filesCheck, Step.structureCheck, Step.secretGen], false)
  else
    ([Step.filesCheck, Step.structureCheck, Step.secretGen,
      Step.checklistWrite], true)

/-- The process exit code of `deploy_vercel.py`:
`sys.exit(0 if success else 1)`. -/
def mainExitCode (fs : FS) (g : GenEvent) : Nat :=
  if (main fs g).2 then 0 else 1

/-- Outcome of calling a collaborator that should return a boolean
(`test_connection`, `init_db`): it returns, or it raises an exception. -/
inductive CallOutcome where
  | ret (b : Bool)
  | raises (msg : String)
deriving DecidableEq, Repr

/-- `startup_event` of `vercel_main.py`: logs a banner, calls
`test_connection()` and, when it returns `True`, `init_db()`; each boolean
outcome is only logged. The hook has no exception handler of its own, so a
collaborator that raises propagates the exception past the hook
(`Except.error`). -/
def startup_event (conn ini : CallOutcome) : Except String (List String) :=
  let banner := ["🚀 Starting Jubair Boot House on Vercel...",
    "💻 Vercel mode: Using SQLite database"]
  match conn with
  | CallOutcome.raises m => Except.error m
  | CallOutcome.ret true =>
    match ini with
    | CallOutcome.raises m => Except.error m
    | CallOutcome.ret true =>
      Except.ok (banner ++ ["✅ SQLite connection established",
        "✅ SQLite tables verified/created"])
    | CallOutcome.ret false =>
      Except.ok (banner ++ ["✅ SQLite connection established",
        "⚠️  SQLite table initialization had issues"])
  | CallOutcome.ret false =>
    Except.ok (banner ++
      ["❌ SQLite connection failed - app will continue with limited functionality"])

/-- Whether `startup_event` raises past itself for the given collaborator
outcomes. -/
def startupRaises (conn ini : CallOutcome) : Bool :=
  match startup_event conn ini with
  | Except.error _ => true
  | Except.ok _ => false

/-- The health payload returned by `health_check`: the success branch fills
`database`, `platform`, `app` and `version` and no `message`; the `except`
branch fills only `status`, `message` and `environment`. -/
structure HealthResponse where
  status : String
  database : Option (String × String)
  environment : String
  platform : Option String
  app : Option String
  version : Option String
  message : Option String
deriving DecidableEq, Repr

/-- `health_check` (GET /health): re-checks connectivity via
`test_connection()`; `healthy` when connected, `warning` when disconnected;
any exception is caught and reported as an `error` payload carrying the
exception's message. The handler is total: it never raises. -/
def health_check (conn : CallOutcome) : HealthResponse :=
  match conn with
  | CallOutcome.ret b =>
    let db_status := if b then "connected" else "disconnected"
    { status := if db_status = "connected" then "healthy" else "warning"
      database := some ("SQLite", db_status)
      environment := "vercel"
      platform := some "serverless"
      app := some "Jubair Boot House"
      version := some "1.0.0"
      message := none }
  | CallOutcome.raises m =>
    { status := "error"
      database := none
      environment := "vercel"
      platform := none
      app := none
      version := none
      message := some m }

/-- The console lines logged by `startup_event` (empty when the hook let an
exception escape). -/
def startupLogs (conn ini : CallOutcome) : List String :=
  match startup_event conn ini with
  | Except.ok l => l
  | Except.error _ => []

/-- A line of console output is the per-item presence/absence report for
required directory `d`: either its checkmark line or its cross line. -/
def dirPresenceLine (d : String) (l : String) : Bool :=
  (l == "✅ " ++ d ++ "/ directory") || (l == "❌ " ++ d ++ "/ directory missing")

/-- A line of console output is the per-item checkmark report for required
file `f`. -/
def fileOkLine (f : String) (l : String) : Bool :=
  l == "✅ " ++ f

/-- The prefix of the required-directory list that the structure-check loop
actually examines: everything up to and including the first failing
directory. -/
def processedDirs (fs : FS) : List String → List String
  | [] => []
  | d :: rest => if dirOk fs d then d :: processedDirs fs rest else [d]

/-- A filesystem where the directory `app` is missing and every other name
resolves to a directory. -/
def fsNoApp : FS :=
  fun p => if p = "app" then Entry.absent else Entry.dir

/-- A filesystem where every required file and every required directory is
present (required files are plain files, everything else a directory). -/
def fsAllGood : FS :=
  fun p => if p ∈ required_files then Entry.file else Entry.dir

/-! ## Helper lemmas -/

/-- The boolean returned by the structure-check loop is the conjunction of
`dirOk` over the remaining directories. -/
theorem checkDirsLoop_snd (fs : FS) (l : List String) :
    (checkDirsLoop fs l).2 = l.all (dirOk fs) := by
  induction l with
  | nil => rfl
  | cons d rest ih =>
    cases h : dirOk fs d <;> simp [checkDirsLoop, h, ih]

/-- The boolean returned by `check_project_structure`. -/
theorem check_project_structure_snd (fs : FS) :
    (check_project_structure fs).2 = required_dirs.all (dirOk fs) :=
  checkDirsLoop_snd fs required_dirs

/-- A required directory passes the check exactly when the path resolves to
a directory. -/
theorem dirOk_iff (fs : FS) (d : String) :
    dirOk fs d = true ↔ fs d = Entry.dir := by
  cases h : fs d <;> simp [dirOk, pathExists, isDir, h]

/-- `check_vercel_files` returns `True` exactly when every required file
exists. -/
theorem check_vercel_files_true_iff (fs : FS) :
    (check_vercel_files fs).2 = true ↔
      ∀ f ∈ required_files, pathExists fs f = true := by
  have key : (check_vercel_files fs).2
      = (required_files.filter (fun f => !pathExists fs f)).isEmpty := by
    cases h : (required_files.filter (fun f => !pathExists fs f)).isEmpty <;>
      simp [check_vercel_files, h]
  rw [key, List.isEmpty_iff, List.filter_eq_nil_iff]
  simp

/-- The structure check fails whenever some required name is not a
directory. -/
theorem check_project_structure_false (fs : FS) {d : String}
    (hd : d ∈ required_dirs) (h : fs d ≠ Entry.dir) :
    (check_project_structure fs).2 = false := by
  rw [Bool.eq_false_iff]
  intro htrue
  rw [check_project_structure_snd, List.all_eq_true] at htrue
  exact h ((dirOk_iff fs d).mp (htrue d hd))

/-- The file check fails whenever some required file is absent. -/
theorem check_vercel_files_false (fs : FS) {f : String}
    (hf : f ∈ required_files) (h : fs f = Entry.absent) :
    (check_vercel_files fs).2 = false := by
  rw [Bool.eq_false_iff]
  intro htrue
  have hex := (check_vercel_files_true_iff fs).mp htrue f hf
  simp [pathExists, h] at hex

/-! ## Claim theorems -/

/-- Claim C6: each of the three redirect routes returns a redirect response
with its fixed target: `/catalog` to `/products/`, `/admin/dashboard` to
`/products/admin/dashboard`, `/admin/users` to `/auth/admin/users`, for
every request. -/
theorem claim_C6 (r : Request) :
    catalog_redirect r = Response.redirect "/products/" ∧
    admin_dashboard_redirect r = Response.redirect "/products/admin/dashboard" ∧
    admin_users_redirect r = Response.redirect "/auth/admin/users" :=
  ⟨rfl, rfl, rfl⟩

/-- Claim C7: `generate_secret_key` returns the generated token when
generation and the file write succeed, and `None` when either raises; the
error is logged in the function's own output (it is modelled as a total
function, so no exception propagates to the caller). -/
theorem claim_C7 (t m tok msg : String) :
    (generate_secret_key (GenEvent.ok t)).2 = some t ∧
    (generate_secret_key (GenEvent.genRaises m)).2 = none ∧
    (generate_secret_key (GenEvent.writeRaises tok msg)).2 = none ∧
    ("❌ Error generating secret key: " ++ m) ∈
      (generate_secret_key (GenEvent.genRaises m)).1 ∧
    ("❌ Error generating secret key: " ++ msg) ∈
      (generate_secret_key (GenEvent.writeRaises tok msg)).1 := by
  refine ⟨rfl, rfl, rfl, ?_, ?_⟩ <;>
    simp [generate_secret_key, generateSecretKeyBody]

/-- Claim C1: `health_check` never raises (it is total), and its status is
`healthy` exactly when the connectivity check returns connected, `warning`
exactly when it returns disconnected, and `error` exactly when the check
raised, in which case the exception's message is in the response. -/
theorem claim_C1 (o : CallOutcome) :
    ((health_check o).status = "healthy" ∨
      (health_check o).status = "warning" ∨
      (health_check o).status = "error") ∧
    ((health_check o).status = "healthy" ↔ o = CallOutcome.ret true) ∧
    ((health_check o).status = "warning" ↔ o = CallOutcome.ret false) ∧
    ((health_check o).status = "error" ↔ ∃ m, o = CallOutcome.raises m) ∧
    (∀ m, o = CallOutcome.raises m → (health_check o).message = some m) := by
  rcases o with b | m
  · cases b <;> simp [health_check]
  · simp [health_check]

/-- Claim C9: `create_deployment_checklist` writes to the fixed filename
`VERCEL-CHECKLIST.md`, its content is exactly the fixed markdown lines, and
the three literal section headers each occur among those lines. -/
theorem claim_C9 :
    create_deployment_checklist.1 = "VERCEL-CHECKLIST.md" ∧
    create_deployment_checklist.2 = String.intercalate "\n" checklistLines ∧
    "## ✅ Pre-Deployment" ∈ checklistLines ∧
    "## 🏗️ Deployment Steps" ∈ checklistLines ∧
    "## 🧪 Post-Deployment Testing" ∈ checklistLines := by
  refine ⟨rfl, rfl, ?_, ?_, ?_⟩ <;> decide

/-- Claim C2: the file checker returns `True` iff every required file
exists and the structure checker returns `True` iff every required name is
a directory; removing any single required item makes the corresponding
checker return `False`. -/
theorem claim_C2 (fs : FS) :
    ((check_vercel_files fs).2 = true ↔
      ∀ f ∈ required_files, pathExists fs f = true) ∧
    ((check_project_structure fs).2 = true ↔
      ∀ d ∈ required_dirs, fs d = Entry.dir) ∧
    (∀ f ∈ required_files,
      (check_vercel_files (removePath fs f)).2 = false) ∧
    (∀ d ∈ required_dirs,
      (check_project_structure (removePath fs d)).2 = false) := by
  refine ⟨check_vercel_files_true_iff fs, ?_, ?_, ?_⟩
  · rw [check_project_structure_snd, List.all_eq_true]
    simp only [dirOk_iff]
  · intro f hf
    exact check_vercel_files_false (removePath fs f) hf (by simp [removePath])
  · intro d hd
    exact check_project_structure_false (removePath fs d) hd
      (by simp [removePath])

/-- Claim C10: a required directory name that resolves to a plain file
makes the structure checker return `False`, the same result as when the
name is absent from the filesystem altogether. -/
theorem claim_C10 (fs : FS) (d : String) (hd : d ∈ required_dirs)
    (hf : fs d = Entry.file) :
    (check_project_structure fs).2 = false ∧
    (check_project_structure fs).2 =
      (check_project_structure (removePath fs d)).2 := by
  have h1 : (check_project_structure fs).2 = false :=
    check_project_structure_false fs hd (by simp [hf])
  have h2 : (check_project_structure (removePath fs d)).2 = false :=
    check_project_structure_false (removePath fs d) hd (by simp [removePath])
  exact ⟨h1, h1.trans h2.symm⟩

/-- A filesystem where the name `app` is a plain file and every other name
resolves to a directory. -/
def fsAppIsFile : FS :=
  fun p => if p = "app" then Entry.file else Entry.dir

/-- Witness for claim C10 at the concrete filesystem `fsAppIsFile`. -/
theorem claim_C10_witness :
    (check_project_structure fsAppIsFile).2 = false ∧
    (check_project_structure fsAppIsFile).2 =
      (check_project_structure (removePath fsAppIsFile "app")).2 :=
  claim_C10 fsAppIsFile "app" (by decide) (by decide)

/-- Claim C5: the preparation script exits with code 0 exactly when the
file check, the structure check and secret generation all succeed, and
with code 1 otherwise; it aborts at the first failing step (the step list
stops at that step). The hypothesis records that a generated token is
never the empty string (`secrets.token_urlsafe(32)` returns 43 characters). -/
theorem claim_C5 (fs : FS) (g : GenEvent)
    (htok : ∀ t, g = GenEvent.ok t → t ≠ "") :
    (mainExitCode fs g = 0 ↔
      ((check_vercel_files fs).2 = true ∧
        (check_project_structure fs).2 = true ∧
        (generate_secret_key g).2.isSome = true)) ∧
    (mainExitCode fs g = 0 ∨ mainExitCode fs g = 1) ∧
    ((check_vercel_files fs).2 = false → (main fs g).1 = [Step.filesCheck]) ∧
    ((check_vercel_files fs).2 = true → (check_project_structure fs).2 = false →
      (main fs g).1 = [Step.filesCheck, Step.structureCheck]) ∧
    ((check_vercel_files fs).2 = true → (check_project_structure fs).2 = true →
      (generate_secret_key g).2 = none →
      (main fs g).1 = [Step.filesCheck, Step.structureCheck, Step.secretGen]) := by
  have hpy : pyTruthy (generate_secret_key g).2 = (generate_secret_key g).2.isSome := by
    rcases g with t | m | ⟨t, m⟩
    · have ht : t ≠ "" := htok t rfl
      have hemp : t.isEmpty = false := by
        rw [Bool.eq_false_iff]
        intro hco
        exact ht ((String.isEmpty_iff t).mp hco)
      simp [generate_secret_key, generateSecretKeyBody, pyTruthy, hemp]
    · simp [generate_secret_key, generateSecretKeyBody, pyTruthy]
    · simp [generate_secret_key, generateSecretKeyBody, pyTruthy]
  cases h1 : (check_vercel_files fs).2 <;>
    cases h2 : (check_project_structure fs).2 <;>
    cases hco : (generate_secret_key g).2 <;>
    simp_all [main, mainExitCode, pyTruthy]

/-- Witness for claim C5 at a concrete filesystem with everything present
and a successful token generation. -/
theorem claim_C5_witness :
    mainExitCode fsAllGood (GenEvent.ok "sAmple-Token_0123456789") = 0 :=
  (claim_C5 fsAllGood (GenEvent.ok "sAmple-Token_0123456789")
    (by intro t h; cases h; decide)).1.mpr (by decide)

/-- Claim C3 counterexample: when the connectivity check itself raises, the
exception propagates past the startup hook (`startup_event` has no
exception handler of its own), contradicting the claim that the hook never
raises whatever the collaborators do. -/
theorem claim_C3_counterexample :
    startup_event (CallOutcome.raises "database exploded") (CallOutcome.ret true)
      = Except.error "database exploded" ∧
    startupRaises (CallOutcome.raises "database exploded") (CallOutcome.ret true)
      = true :=
  ⟨rfl, rfl⟩

/-- Claim C3 as amended: the startup hook never raises as long as the
connectivity check and the schema initialization return booleans — each
boolean outcome is only logged and the application continues (including the
degraded-mode log line when the database is unreachable) — but an exception
raised by either collaborator propagates past the hook. -/
theorem claim_C3_amended (c i : Bool) (m : String) :
    startupRaises (CallOutcome.ret c) (CallOutcome.ret i) = false ∧
    (∃ logs, startup_event (CallOutcome.ret c) (CallOutcome.ret i)
      = Except.ok logs) ∧
    ("❌ SQLite connection failed - app will continue with limited functionality"
      ∈ startupLogs (CallOutcome.ret false) (CallOutcome.ret i)) ∧
    startup_event (CallOutcome.raises m) (CallOutcome.ret i) = Except.error m ∧
    startup_event (CallOutcome.ret true) (CallOutcome.raises m) = Except.error m := by
  cases c <;> cases i <;>
    refine ⟨rfl, ⟨_, rfl⟩, ?_, rfl, rfl⟩ <;>
    simp [startup_event, startupLogs]

/-- Claim C4 counterexample: on a successful run, `vercel_secret_key.txt`
holds three lines, not the two the claim states. -/
theorem claim_C4_counterexample :
    (secretFileLines "SAMPLETOKEN").length = 3 ∧
    ¬ (secretFileLines "SAMPLETOKEN").length = 2 := by
  decide

/-- Claim C4 as amended: after a successful run, `vercel_secret_key.txt`
consists of exactly three lines — `SECRET_KEY=<token>` carrying the
generated token, then `ENVIRONMENT=production`, then `DEBUG=false` — and
the written content is exactly those lines, each newline-terminated. -/
theorem claim_C4_amended (token : String) :
    secretFileContent token =
      (secretFileLines token).foldl (fun acc l => acc ++ l ++ "\n") "" ∧
    secretFileLines token =
      ["SECRET_KEY=" ++ token, "ENVIRONMENT=production", "DEBUG=false"] ∧
    (secretFileLines token).length = 3 := by
  refine ⟨?_, rfl, rfl⟩
  simp [secretFileContent, secretFileLines, List.foldl, String.empty_append,
    String.append_assoc]

/-- Claim C8 counterexample: on a filesystem where `app` is missing but
`static` and `templates` exist, the structure checker's console output
contains no presence/absence line for `static` at all (the loop returns at
the first missing directory), contradicting the claimed exactly-one line
per item. -/
theorem claim_C8_counterexample :
    "static" ∈ required_dirs ∧
    (check_project_structure fsNoApp).1.countP (dirPresenceLine "static") = 0 ∧
    ¬ (check_project_structure fsNoApp).1.countP (dirPresenceLine "static") = 1 := by
  decide

/-- For every required file, the file checker prints its checkmark line
exactly once when it exists and never when it is missing; all missing files
are reported together in one combined cross line. -/
theorem check_vercel_files_lines (fs : FS) :
    (∀ f ∈ required_files,
      (check_vercel_files fs).1.countP (fileOkLine f) =
        if pathExists fs f then 1 else 0) ∧
    (required_files.filter (fun f => !pathExists fs f) ≠ [] →
      ("❌ Missing files: " ++
        String.intercalate ", "
          (required_files.filter (fun f => !pathExists fs f)))
        ∈ (check_vercel_files fs).1) := by
  cases h1 : pathExists fs "vercel.json" <;>
    cases h2 : pathExists fs "vercel_main.py" <;>
    cases h3 : pathExists fs "requirements-vercel.txt" <;>
    simp_all [check_vercel_files, required_files, fileOkLine,
      List.countP_cons, String.intercalate] <;>
    decide

/-- For every required directory, the structure checker prints its
presence/absence line exactly once when the loop reaches it — that is, when
it lies in the processed prefix ending at the first failure — and never
otherwise. -/
theorem check_project_structure_lines (fs : FS) :
    ∀ d ∈ required_dirs,
      (check_project_structure fs).1.countP (dirPresenceLine d) =
        if d ∈ processedDirs fs required_dirs then 1 else 0 := by
  cases h4 : dirOk fs "app" <;>
    cases h5 : dirOk fs "static" <;>
    cases h6 : dirOk fs "templates" <;>
    simp_all [check_project_structure, checkDirsLoop, required_dirs,
      processedDirs, dirPresenceLine, List.countP_cons]

/-- Claim C8 as amended: the file checker's output has exactly one
checkmark line per present required file, no per-item line for a missing
file — missing files are instead listed together in a single combined cross
line — and the structure checker's output has exactly one presence/absence
line per required directory up to and including the first missing one, and
none for the directories after it. -/
theorem claim_C8_amended (fs : FS) :
    (∀ f ∈ required_files,
      (check_vercel_files fs).1.countP (fileOkLine f) =
        if pathExists fs f then 1 else 0) ∧
    (required_files.filter (fun f => !pathExists fs f) ≠ [] →
      ("❌ Missing files: " ++
        String.intercalate ", "
          (required_files.filter (fun f => !pathExists fs f)))
        ∈ (check_vercel_files fs).1) ∧
    (∀ d ∈ required_dirs,
      (check_project_structure fs).1.countP (dirPresenceLine d) =
        if d ∈ processedDirs fs required_dirs then 1 else 0) :=
  ⟨(check_vercel_files_lines fs).1, (check_vercel_files_lines fs).2,
    check_project_structure_lines fs⟩

end JubairBootHouse
